import Mathlib

/-!
Shallow embedding of nytcampfin.py, a Python client for the New York Times
Campaign Finance API, together with theorems checking its specification.

The embedding follows the source file closely:
  - PyVal models the Python scalar values that flow through keyword and
    positional arguments (None, bools, ints, strings).
  - Json models decoded response bodies.
  - PyExc models the exceptions the code can raise: the two library classes
    NytCampfinError and NytNotFoundError declared in the source, plus the
    builtin exceptions its operations can raise (KeyError from dict lookup,
    IndexError from list indexing, TypeError from bad formatting or joins).
    ExcClass and isSubclass model the Python class hierarchy so that
    "except NytCampfinError" catchability can be stated.
  - fetch is split into fetchRequest (lines 43-52 of the source: offset
    normalization, api-key insertion, URL construction) and handleResponse
    (lines 55-69: status check, error raising, parse application); fetch
    composes them through a transport function standing for requests.get.
-/

namespace NytCampfin

/-- Python scalar values used as positional and keyword arguments. -/
inductive PyVal where
  | none
  | bool (b : Bool)
  | int (n : Int)
  | str (s : String)
  deriving DecidableEq

/-- Python truthiness of a PyVal, as used by "if not kwargs['offset']"
and by the "if district" / "elif chamber" tests in seats. -/
def PyVal.truthy : PyVal → Bool
  | .none => false
  | .bool b => b
  | .int n => n != 0
  | .str s => s != ""

/-- Python str() of a PyVal, as used by %s-interpolation. -/
def PyVal.pyStr : PyVal → String
  | .none => "None"
  | .bool true => "True"
  | .bool false => "False"
  | .int n => toString n
  | .str s => s

/-- Decoded JSON values, the type of resp.json. -/
inductive Json where
  | null
  | bool (b : Bool)
  | num (n : Int)
  | str (s : String)
  | arr (items : List Json)
  | obj (fields : List (String × Json))

/-- Exceptions raised by the code: the two classes declared in the source
(lines 23-31) and the builtins its operations can raise. -/
inductive PyExc where
  | nytCampfinError (msg : String)
  | nytNotFoundError (msg : String)
  | keyError (key : String)
  | indexError (msg : String)
  | typeError (msg : String)
  deriving DecidableEq

/-- Exception classes, for modelling the Python class hierarchy:
class NytCampfinError(Exception), class NytNotFoundError(NytCampfinError),
and the builtin hierarchy KeyError/IndexError < LookupError < Exception,
TypeError < Exception. -/
inductive ExcClass where
  | exceptionClass
  | lookupErrorClass
  | keyErrorClass
  | indexErrorClass
  | typeErrorClass
  | nytCampfinErrorClass
  | nytNotFoundErrorClass
  deriving DecidableEq

/-- The class of an exception instance. -/
def classOf : PyExc → ExcClass
  | .nytCampfinError _ => .nytCampfinErrorClass
  | .nytNotFoundError _ => .nytNotFoundErrorClass
  | .keyError _ => .keyErrorClass
  | .indexError _ => .indexErrorClass
  | .typeError _ => .typeErrorClass

/-- The method resolution order of each class: itself followed by its base
classes, ending at Exception. NytNotFoundError lists NytCampfinError because
the source declares class NytNotFoundError(NytCampfinError). -/
def mro : ExcClass → List ExcClass
  | .exceptionClass => [.exceptionClass]
  | .lookupErrorClass => [.lookupErrorClass, .exceptionClass]
  | .keyErrorClass => [.keyErrorClass, .lookupErrorClass, .exceptionClass]
  | .indexErrorClass => [.indexErrorClass, .lookupErrorClass, .exceptionClass]
  | .typeErrorClass => [.typeErrorClass, .exceptionClass]
  | .nytCampfinErrorClass => [.nytCampfinErrorClass, .exceptionClass]
  | .nytNotFoundErrorClass =>
      [.nytNotFoundErrorClass, .nytCampfinErrorClass, .exceptionClass]

/-- issubclass(c, d) in Python terms. -/
def isSubclass (c d : ExcClass) : Bool := (mro c).contains d

/-- isinstance(e, c): whether a handler "except c" catches exception e. -/
def isInstance (e : PyExc) (c : ExcClass) : Bool := isSubclass (classOf e) c

/-- The outcome of a call: a returned value or a raised exception. -/
inductive Outcome where
  | ok (value : Json)
  | raised (exc : PyExc)

/-- Lookup in an insertion-ordered dict represented as an association list. -/
def lookupA {α : Type} : List (String × α) → String → Option α
  | [], _ => Option.none
  | (k, v) :: rest, key => if k = key then some v else lookupA rest key

/-- Python dict assignment d[key] = v: replace in place, else append. -/
def setKey {α : Type} : List (String × α) → String → α → List (String × α)
  | [], key, v => [(key, v)]
  | (k, w) :: rest, key, v =>
      if k = key then (k, v) :: rest else (k, w) :: setKey rest key v

/-- Python subscripting j[key] with a string key. -/
def pyGetItem (j : Json) (key : String) : Except PyExc Json :=
  match j with
  | .obj fields =>
      match lookupA fields key with
      | some v => .ok v
      | Option.none => .error (.keyError key)
  | _ => .error (.typeError "object is not subscriptable")

/-- Python subscripting j[0]. -/
def pyIndexZero : Json → Except PyExc Json
  | .arr [] => .error (.indexError "list index out of range")
  | .arr (x :: _) => .ok x
  | .str s =>
      match s.data with
      | [] => .error (.indexError "string index out of range")
      | c :: _ => .ok (.str (String.singleton c))
  | .obj _ => .error (.keyError "0")
  | _ => .error (.typeError "object is not subscriptable")

/-- str.join over a sequence requires every item to be a string. -/
def strItems : List Json → Except PyExc (List String)
  | [] => .ok []
  | .str s :: rest => (strItems rest).map (fun l => s :: l)
  | _ :: _ => .error (.typeError "sequence item: expected str instance")

/-- Iterating a Json value and collecting the strings it yields, as the
generator inside the join does: a list yields its items (which must be
strings), a string yields its characters, a dict yields its keys, and
anything else raises TypeError. -/
def pyIterStrs : Json → Except PyExc (List String)
  | .arr items => strItems items
  | .str s => .ok (s.data.map (fun c => String.singleton c))
  | .obj fields => .ok (fields.map (fun kv => kv.1))
  | _ => .error (.typeError "object is not iterable")

/-- Line 57 of the source: the message built from the body of a failed
response, content['errors'] joined with a semicolon separator. -/
def joinErrors (body : Json) : Except PyExc String :=
  match pyGetItem body "errors" with
  | .error e => .error e
  | .ok errs =>
      match pyIterStrs errs with
      | .error e => .error e
      | .ok parts => .ok (String.intercalate "; " parts)

/-- Python str.lower(), character by character (ASCII, which covers every
string the code compares). -/
def pyLower (s : String) : String := ⟨s.data.map Char.toLower⟩

/-- Whether the first character list is an initial segment of the second. -/
def leadsWith : List Char → List Char → Bool
  | [], _ => true
  | _ :: _, [] => false
  | c :: cs, d :: ds => c == d && leadsWith cs ds

/-- Python s.startswith(p). -/
def pyStartsWith (s p : String) : Bool := leadsWith p.data s.data

/-- The literal string made of the given characters. -/
def litStr : List Char → String
  | [] => ""
  | c :: rest => String.singleton c ++ litStr rest

/-- No percent sign among the given characters. -/
def noPercent (l : List Char) : Bool := l.all (fun c => c != '%')

/-- Python percent-formatting, template % args, restricted to the
conversions that can appear here: %s substitutes str(arg), %% is a literal
percent sign; a mismatch between placeholders and arguments raises
TypeError, any other conversion character raises ValueError (modelled as a
TypeError-style failure since the code never reaches it). -/
def formatPercent : List Char → List PyVal → Except PyExc String
  | [], [] => .ok ""
  | [], _ :: _ =>
      .error (.typeError "not all arguments converted during string formatting")
  | c :: rest, args =>
      if c = '%' then
        match rest, args with
        | 's' :: tail, a :: more =>
            (formatPercent tail more).map (fun t => a.pyStr ++ t)
        | 's' :: _, [] =>
            .error (.typeError "not enough arguments for format string")
        | '%' :: tail, _ =>
            (formatPercent tail args).map (fun t => String.singleton '%' ++ t)
        | _, _ => .error (.typeError "unsupported format character")
      else
        (formatPercent rest args).map (fun t => String.singleton c ++ t)

/-- String-level wrapper for percent-formatting. -/
def pyFormat (s : String) (args : List PyVal) : Except PyExc String :=
  formatPercent s.data args

/-- Line 13 of the source: DEBUG = False. -/
def DEBUG : Bool := false

/-- Line 15 of the source: CURRENT_CYCLE = 2012. -/
def CURRENT_CYCLE : Int := 2012

/-- Line 37 of the source. -/
def BASE_URI : String := "http://api.nytimes.com/svc/elections/us/v3/finances"

/-- The single HTTP GET issued by fetch: requests.get(url, params=dict(kwargs)). -/
structure Request where
  url : String
  params : List (String × PyVal)
  deriving DecidableEq

/-- A mocked HTTP response: status_code together with the decoded body
resp.json. -/
structure Response where
  status : Nat
  body : Json

/-- Lines 43-44 of the source:
if not kwargs['offset']: kwargs['offset'] = 0.
Reading a missing key raises KeyError. -/
def normalizeOffset (kwargs : List (String × PyVal)) :
    Except PyExc (List (String × PyVal)) :=
  match lookupA kwargs "offset" with
  | Option.none => .error (.keyError "offset")
  | some v => if v.truthy then .ok kwargs else .ok (setKey kwargs "offset" (.int 0))

/-- Lines 48-52 of the source: URL construction. The percent-substitution is
applied to the whole concatenated string, as in url = (url % args); BASE_URI
contains no percent sign so only the template placeholders are substituted. -/
def buildUrl (path : String) (args : List PyVal) : Except PyExc String :=
  if !(pyStartsWith (pyLower path) BASE_URI) then
    pyFormat (BASE_URI ++ path ++ ".json") args
  else
    .ok (path ++ "?")

/-- Lines 43-52 of the source: everything fetch does before the GET, from
offset normalization through api-key insertion to URL construction,
producing the request that is sent. The parse keyword is popped from kwargs
before the request, so it is kept apart from the query parameters here. -/
def fetchRequest (apikey path : String) (args : List PyVal)
    (kwargs : List (String × PyVal)) : Except PyExc Request :=
  match normalizeOffset kwargs with
  | .error e => .error e
  | .ok kw1 =>
      let kw2 := setKey kw1 "api-key" (.str apikey)
      match buildUrl path args with
      | .error e => .error e
      | .ok url => .ok ⟨url, kw2⟩

/-- The parse keyword argument of fetch: absent (so the default lambda
r: r['results'][0] is used), a callable, or a non-callable value. -/
inductive ParseArg where
  | absent
  | callable (f : Json → Except PyExc Json)
  | notCallable (v : PyVal)

/-- Line 45 of the source: the default parse function,
lambda r: r['results'][0]. -/
def defaultParse (r : Json) : Except PyExc Json :=
  (pyGetItem r "results").bind pyIndexZero

/-- The lambda r: r['results'] passed as parse by the list endpoints. -/
def resultsParse (r : Json) : Except PyExc Json :=
  pyGetItem r "results"

/-- Lines 66-68 of the source: result = parse(result), then under DEBUG the
result is annotated with the request URL (an item assignment, which would
raise TypeError on a non-dict result). -/
def applyCallable (f : Json → Except PyExc Json) (result : Json)
    (url : String) : Outcome :=
  match f result with
  | .error e => .raised e
  | .ok r =>
      if DEBUG then
        match r with
        | .obj fields => .ok (.obj (setKey fields "_url" (.str url)))
        | _ => .raised (.typeError "object does not support item assignment")
      else .ok r

/-- Lines 55-69 of the source: the status check, error raising and parse
application performed on the response. -/
def handleResponse (parse : ParseArg) (url : String) (resp : Response) :
    Outcome :=
  if !(resp.status = 200 ∨ resp.status = 304 : Bool) then
    match joinErrors resp.body with
    | .error e => .raised e
    | .ok errors =>
        if resp.status = 404 then .raised (.nytNotFoundError errors)
        else .raised (.nytCampfinError errors)
  else
    let result := resp.body
    match parse with
    | .absent => applyCallable defaultParse result url
    | .callable f => applyCallable f result url
    | .notCallable _ => .ok result

/-- Client.fetch, lines 42-69 of the source, with the HTTP layer abstracted
as a transport function from the issued request to its response. -/
def fetch (apikey path : String) (args : List PyVal)
    (kwargs : List (String × PyVal)) (parse : ParseArg)
    (transport : Request → Response) : Outcome :=
  match fetchRequest apikey path args kwargs with
  | .error e => .raised e
  | .ok req => handleResponse parse req.url (transport req)

namespace FilingsClient

/-- FilingsClient.today, lines 73-77. -/
def today (apikey : String) (cycle offset : PyVal)
    (transport : Request → Response) : Outcome :=
  fetch apikey "/%s/filings" [cycle] [("offset", offset)]
    (.callable resultsParse) transport

/-- FilingsClient.date, lines 79-83. -/
def date (apikey : String) (year month day cycle offset : PyVal)
    (transport : Request → Response) : Outcome :=
  fetch apikey "/%s/filings/%s/%s/%s" [cycle, year, month, day]
    [("offset", offset)] (.callable resultsParse) transport

/-- FilingsClient.form_types, lines 85-89. -/
def form_types (apikey : String) (cycle offset : PyVal)
    (transport : Request → Response) : Outcome :=
  fetch apikey "/%s/filings/types" [cycle] [("offset", offset)]
    (.callable resultsParse) transport

/-- FilingsClient.by_type, lines 91-95. -/
def by_type (apikey : String) (form_type cycle offset : PyVal)
    (transport : Request → Response) : Outcome :=
  fetch apikey "/%s/filings/types/%s" [cycle, form_type] [("offset", offset)]
    (.callable resultsParse) transport

/-- FilingsClient.amendments, lines 97-101. -/
def amendments (apikey : String) (cycle offset : PyVal)
    (transport : Request → Response) : Outcome :=
  fetch apikey "/%s/filings/amendments" [cycle] [("offset", offset)]
    (.callable resultsParse) transport

end FilingsClient

namespace CandidatesClient

/-- CandidatesClient.latest, lines 105-109. -/
def latest (apikey : String) (cycle offset : PyVal)
    (transport : Request → Response) : Outcome :=
  fetch apikey "/%s/candidates/new" [cycle] [("offset", offset)]
    (.callable resultsParse) transport

/-- CandidatesClient.get, lines 111-115: no parse keyword is passed, so the
default extraction applies. -/
def get (apikey : String) (cand_id cycle offset : PyVal)
    (transport : Request → Response) : Outcome :=
  fetch apikey "/%s/candidates/%s" [cycle, cand_id] [("offset", offset)]
    .absent transport

/-- CandidatesClient.filter, lines 117-121. -/
def filter (apikey : String) (query cycle offset : PyVal)
    (transport : Request → Response) : Outcome :=
  fetch apikey "/%s/candidates/search" [cycle]
    [("query", query), ("offset", offset)] (.callable resultsParse) transport

/-- CandidatesClient.leaders, lines 123-127. -/
def leaders (apikey : String) (category cycle offset : PyVal)
    (transport : Request → Response) : Outcome :=
  fetch apikey "/%s/candidates/leaders/%s" [cycle, category]
    [("offset", offset)] (.callable resultsParse) transport

/-- CandidatesClient.seats, lines 129-140: the template is selected by the
truthiness of district, then of chamber. -/
def seats (apikey : String) (state chamber district cycle offset : PyVal)
    (transport : Request → Response) : Outcome :=
  if district.truthy then
    fetch apikey "/%s/seats/%s/%s/%s" [cycle, state, chamber, district]
      [("offset", offset)] (.callable resultsParse) transport
  else if chamber.truthy then
    fetch apikey "/%s/seats/%s/%s" [cycle, state, chamber]
      [("offset", offset)] (.callable resultsParse) transport
  else
    fetch apikey "/%s/seats/%s" [cycle, state]
      [("offset", offset)] (.callable resultsParse) transport

end CandidatesClient

namespace CommitteesClient

/-- CommitteesClient.latest, lines 144-148. -/
def latest (apikey : String) (cycle offset : PyVal)
    (transport : Request → Response) : Outcome :=
  fetch apikey "/%s/committees/new" [cycle] [("offset", offset)]
    (.callable resultsParse) transport

/-- CommitteesClient.get, lines 150-154: no parse keyword is passed, so the
default extraction applies. -/
def get (apikey : String) (cmte_id cycle offset : PyVal)
    (transport : Request → Response) : Outcome :=
  fetch apikey "/%s/committees/%s" [cycle, cmte_id] [("offset", offset)]
    .absent transport

/-- CommitteesClient.filter, lines 156-160. -/
def filter (apikey : String) (query cycle offset : PyVal)
    (transport : Request → Response) : Outcome :=
  fetch apikey "/%s/committees/search" [cycle]
    [("query", query), ("offset", offset)] (.callable resultsParse) transport

/-- CommitteesClient.filings, lines 162-166. -/
def filings (apikey : String) (cmte_id cycle offset : PyVal)
    (transport : Request → Response) : Outcome :=
  fetch apikey "/%s/committees/%s/filings" [cycle, cmte_id]
    [("offset", offset)] (.callable resultsParse) transport

/-- CommitteesClient.contributions, lines 168-172. -/
def contributions (apikey : String) (cmte_id cycle offset : PyVal)
    (transport : Request → Response) : Outcome :=
  fetch apikey "/%s/committees/%s/contributions" [cycle, cmte_id]
    [("offset", offset)] (.callable resultsParse) transport

/-- CommitteesClient.contributions_to_candidate, lines 174-178. -/
def contributions_to_candidate (apikey : String)
    (cmte_id candidate_id cycle offset : PyVal)
    (transport : Request → Response) : Outcome :=
  fetch apikey "/%s/committees/%s/contributions/candidates/%s"
    [cycle, cmte_id, candidate_id] [("offset", offset)]
    (.callable resultsParse) transport

/-- CommitteesClient.leadership, lines 180-184. -/
def leadership (apikey : String) (cycle offset : PyVal)
    (transport : Request → Response) : Outcome :=
  fetch apikey "/%s/committees/leadership" [cycle] [("offset", offset)]
    (.callable resultsParse) transport

end CommitteesClient

end NytCampfin

namespace NytCampfin

theorem strData_append (a b : String) : (a ++ b).data = a.data ++ b.data := rfl

theorem strApp_assoc (a b c : String) : a ++ b ++ c = a ++ (b ++ c) := by
  apply String.ext
  simp [strData_append]

theorem strEmpty_append (t : String) : "" ++ t = t := by
  apply String.ext
  rw [strData_append]
  rfl

theorem litStr_eq : ∀ l : List Char, litStr l = ⟨l⟩ := by
  intro l
  induction l with
  | nil => rfl
  | cons c rest ih =>
    show String.singleton c ++ litStr rest = _
    rw [ih]
    apply String.ext
    rw [strData_append]
    rfl

theorem lookupA_setKey_self {α : Type} (l : List (String × α)) (k : String) (v : α) :
    lookupA (setKey l k v) k = some v := by
  induction l with
  | nil => simp [setKey, lookupA]
  | cons p rest ih =>
    obtain ⟨k1, w⟩ := p
    by_cases h : k1 = k
    · simp [setKey, lookupA, h]
    · simp [setKey, lookupA, h, ih]

theorem lookupA_setKey_ne {α : Type} (l : List (String × α)) (k key : String) (v : α)
    (hne : k ≠ key) : lookupA (setKey l k v) key = lookupA l key := by
  induction l with
  | nil => simp [setKey, lookupA, hne]
  | cons p rest ih =>
    obtain ⟨k1, w⟩ := p
    by_cases h : k1 = k
    · subst h
      simp [setKey, lookupA, hne]
    · simp [setKey, lookupA, h, ih]

theorem strItems_map (es : List String) :
    strItems (es.map Json.str) = .ok es := by
  induction es with
  | nil => rfl
  | cons s rest ih => simp [strItems, ih, Except.map]

end NytCampfin

namespace NytCampfin

theorem formatPercent_cons (c : Char) (rest : List Char) (args : List PyVal)
    (hc : ¬c = '%') :
    formatPercent (c :: rest) args =
      (formatPercent rest args).map (fun t => String.singleton c ++ t) := by
  cases rest with
  | nil =>
    rw [formatPercent.eq_6 args c []
        (by intro tail hh; exact List.noConfusion hh)
        (by intro tail a more hh _; exact List.noConfusion hh)
        (by intro tail hh _; exact List.noConfusion hh),
      if_neg hc]
  | cons c1 r1 =>
    by_cases h1 : c1 = 's'
    · subst h1
      cases args with
      | nil => rw [formatPercent.eq_4, if_neg hc]
      | cons a more => rw [formatPercent.eq_3, if_neg hc]
    · by_cases h2 : c1 = '%'
      · subst h2
        rw [formatPercent.eq_5, if_neg hc]
      · rw [formatPercent.eq_6 args c (c1 :: r1)
            (by intro tail hh; injection hh with hh1 _; exact h2 hh1)
            (by intro tail a more hh _; injection hh with hh1 _; exact h1 hh1)
            (by intro tail hh _; injection hh with hh1 _; exact h1 hh1),
          if_neg hc]

theorem noPercent_format : ∀ l : List Char, noPercent l = true →
    formatPercent l [] = .ok (litStr l) := by
  intro l
  induction l with
  | nil => intro _; rfl
  | cons c rest ih =>
    intro h
    simp only [noPercent, List.all_cons, Bool.and_eq_true, bne_iff_ne, ne_eq] at h
    obtain ⟨hc, hrest⟩ := h
    rw [formatPercent_cons c rest [] hc, ih hrest]
    simp [litStr, Except.map]

theorem formatPercent_front : ∀ p : List Char, noPercent p = true →
    ∀ (b : List Char) (args : List PyVal),
      formatPercent (p ++ b) args = (formatPercent b args).map (fun t => litStr p ++ t) := by
  intro p
  induction p with
  | nil =>
    intro _ b args
    cases h : formatPercent b args <;> simp [h, litStr, Except.map, strEmpty_append]
  | cons c p1 ih =>
    intro h b args
    simp only [noPercent, List.all_cons, Bool.and_eq_true, bne_iff_ne, ne_eq] at h
    obtain ⟨hc, hp1⟩ := h
    rw [List.cons_append, formatPercent_cons c (p1 ++ b) args hc, ih hp1 b args]
    cases hf : formatPercent b args <;> simp [Except.map, litStr, strApp_assoc]

theorem formatPercent_back (suf : List Char) (hs : noPercent suf = true) :
    ∀ (b : List Char) (args : List PyVal) (t : String),
      formatPercent b args = .ok t →
      formatPercent (b ++ suf) args = .ok (t ++ litStr suf) := by
  intro b args
  induction b, args using formatPercent.induct with
  | case1 =>
    intro t h
    simp only [formatPercent] at h
    cases h
    rw [List.nil_append, noPercent_format suf hs, strEmpty_append]
  | case2 head tail =>
    intro t h
    simp [formatPercent] at h
  | case3 tail a more ih =>
    intro t h
    simp only [formatPercent, reduceIte] at h
    cases hf : formatPercent tail more with
    | error e => rw [hf] at h; simp [Except.map] at h
    | ok t1 =>
      rw [hf] at h
      simp only [Except.map] at h
      cases h
      simp only [List.cons_append, formatPercent, reduceIte]
      rw [List.append_eq, ih t1 hf]
      simp [Except.map, strApp_assoc]
  | case4 tail =>
    intro t h
    simp [formatPercent] at h
  | case5 args tail ih =>
    intro t h
    simp only [formatPercent, reduceIte] at h
    cases hf : formatPercent tail args with
    | error e => rw [hf] at h; simp [Except.map] at h
    | ok t1 =>
      rw [hf] at h
      simp only [Except.map] at h
      cases h
      simp only [List.cons_append, formatPercent, reduceIte]
      rw [List.append_eq, ih t1 hf]
      simp [Except.map, strApp_assoc]
  | case6 rest args h1 h2 h3 =>
    intro t h
    cases rest with
    | nil => simp [formatPercent] at h
    | cons c1 r1 =>
      by_cases hs1 : c1 = 's'
      · subst hs1
        cases args with
        | nil => exact absurd rfl (fun hh => h3 r1 hh rfl)
        | cons a more => exact absurd rfl (fun hh => h2 r1 a more hh rfl)
      · by_cases hp1 : c1 = '%'
        · subst hp1
          exact absurd rfl (fun hh => h1 r1 hh)
        · simp [formatPercent, hs1, hp1] at h
  | case7 c rest args hc ih =>
    intro t h
    rw [formatPercent_cons c rest args hc] at h
    cases hf : formatPercent rest args with
    | error e => rw [hf] at h; simp [Except.map] at h
    | ok t1 =>
      rw [hf] at h
      simp only [Except.map] at h
      cases h
      rw [List.cons_append, formatPercent_cons c (rest ++ suf) args hc, ih t1 hf]
      simp [Except.map, strApp_assoc]

end NytCampfin

namespace NytCampfin

theorem strMk_data (s : String) : (⟨s.data⟩ : String) = s := rfl

theorem noPercent_base : noPercent BASE_URI.data = true := by decide

theorem noPercent_json : noPercent ".json".data = true := by decide

/-- Percent-substitution of the concatenation BASE_URI + path + ".json"
distributes over the concatenation, since neither BASE_URI nor ".json"
contains a placeholder. -/
theorem pyFormat_full (path : String) (args : List PyVal) (sub : String)
    (h : pyFormat path args = .ok sub) :
    pyFormat (BASE_URI ++ path ++ ".json") args = .ok (BASE_URI ++ sub ++ ".json") := by
  unfold pyFormat at h ⊢
  rw [strData_append, strData_append, List.append_assoc]
  rw [formatPercent_front BASE_URI.data noPercent_base]
  rw [formatPercent_back ".json".data noPercent_json path.data args sub h]
  simp only [Except.map, litStr_eq, strMk_data]
  rw [strApp_assoc]

/-- Projection: the URL of a successfully built request. -/
def urlOf : Except PyExc Request → Option String
  | .ok req => some req.url
  | .error _ => Option.none

/-- Projection: a query parameter of a successfully built request. -/
def paramOf : Except PyExc Request → String → Option PyVal
  | .ok req, key => lookupA req.params key
  | .error _, _ => Option.none

theorem joinErrors_strs (body : Json) (es : List String)
    (h : pyGetItem body "errors" = .ok (Json.arr (es.map Json.str))) :
    joinErrors body = .ok (String.intercalate "; " es) := by
  simp [joinErrors, h, pyIterStrs, strItems_map]

theorem fetch_fail_eq (ak path : String) (args : List PyVal)
    (kwargs : List (String × PyVal)) (parse : ParseArg)
    (transport : Request → Response) (req : Request) (es : List String)
    (hreq : fetchRequest ak path args kwargs = .ok req)
    (h200 : (transport req).status ≠ 200) (h304 : (transport req).status ≠ 304)
    (herr : pyGetItem (transport req).body "errors" = .ok (Json.arr (es.map Json.str))) :
    fetch ak path args kwargs parse transport =
      .raised (if (transport req).status = 404
        then .nytNotFoundError (String.intercalate "; " es)
        else .nytCampfinError (String.intercalate "; " es)) := by
  unfold fetch
  rw [hreq]
  show handleResponse parse req.url (transport req) = _
  unfold handleResponse
  rw [joinErrors_strs _ es herr]
  have hcond : (!(decide ((transport req).status = 200 ∨ (transport req).status = 304))) = true := by
    simp [h200, h304]
  rw [hcond]
  by_cases h404 : (transport req).status = 404 <;> simp [h404]

end NytCampfin

namespace NytCampfin

/-- Claim C1, counterexample: a direct call into fetch that omits offset
entirely is not normalized to 0; reading kwargs['offset'] raises KeyError
before any request is built, so no query parameters are sent at all. -/
theorem offset_omitted_counterexample :
    fetchRequest "KEY" "/%s/filings" [PyVal.int 2012] []
      = Except.error (PyExc.keyError "offset")
    ∧ (fetchRequest "KEY" "/%s/filings" [PyVal.int 2012] []).toOption = Option.none :=
  ⟨rfl, rfl⟩

/-- Claim C1 (amended): for every call into fetch that supplies an offset
key, a falsy offset value is normalized to the literal 0 in the sent query
parameters and a truthy offset value is passed through unchanged; a call
that omits offset entirely raises KeyError before any request is sent
(every endpoint method always supplies offset, defaulting to 0). -/
theorem offset_normalized (ak path : String) (args : List PyVal)
    (kwargs : List (String × PyVal)) (v : PyVal) (req : Request) :
    (lookupA kwargs "offset" = some v → fetchRequest ak path args kwargs = .ok req →
      lookupA req.params "offset" = some (if v.truthy then v else PyVal.int 0))
    ∧ (lookupA kwargs "offset" = Option.none →
      fetchRequest ak path args kwargs = .error (.keyError "offset")) := by
  constructor
  · intro hoff hreq
    unfold fetchRequest at hreq
    simp only [normalizeOffset, hoff] at hreq
    by_cases ht : v.truthy
    · rw [if_pos ht] at hreq
      cases hurl : buildUrl path args with
      | error e => rw [hurl] at hreq; cases hreq
      | ok url =>
        rw [hurl] at hreq
        cases hreq
        rw [if_pos ht]
        rw [lookupA_setKey_ne _ _ _ _ (by decide)]
        exact hoff
    · rw [if_neg ht] at hreq
      cases hurl : buildUrl path args with
      | error e => rw [hurl] at hreq; cases hreq
      | ok url =>
        rw [hurl] at hreq
        cases hreq
        rw [if_neg ht]
        rw [lookupA_setKey_ne _ _ _ _ (by decide)]
        exact lookupA_setKey_self _ _ _
  · intro hoff
    unfold fetchRequest
    simp [normalizeOffset, hoff]

set_option maxRecDepth 20000 in
/-- Witness for claim C1 at concrete inputs: an offset of None is sent as
the literal 0, and a call with no offset key fails with KeyError. -/
theorem offset_normalized_witness :
    lookupA [("offset", PyVal.none)] "offset" = some PyVal.none
    ∧ fetchRequest "KEY" "/%s/filings" [PyVal.int 2012] [("offset", PyVal.none)]
        = Except.ok ⟨"http://api.nytimes.com/svc/elections/us/v3/finances/2012/filings.json",
            [("offset", PyVal.int 0), ("api-key", PyVal.str "KEY")]⟩
    ∧ lookupA [("offset", PyVal.int 0), ("api-key", PyVal.str "KEY")] "offset"
        = some (if PyVal.none.truthy then PyVal.none else PyVal.int 0)
    ∧ lookupA ([] : List (String × PyVal)) "offset" = Option.none
    ∧ fetchRequest "KEY" "/%s/candidates/new" [PyVal.int 2012] []
        = Except.error (PyExc.keyError "offset") :=
  ⟨rfl, rfl,
    (offset_normalized "KEY" "/%s/filings" [PyVal.int 2012] [("offset", PyVal.none)]
      PyVal.none
      ⟨"http://api.nytimes.com/svc/elections/us/v3/finances/2012/filings.json",
        [("offset", PyVal.int 0), ("api-key", PyVal.str "KEY")]⟩).1 rfl rfl,
    rfl,
    (offset_normalized "KEY" "/%s/candidates/new" [PyVal.int 2012] []
      PyVal.none ⟨"", []⟩).2 rfl⟩

/-- Claim C2: for every fetch call whose response status is neither 200 nor
304 and whose body carries a list of error strings under the key "errors",
fetch raises NytNotFoundError when the status is 404 and NytCampfinError
otherwise, with the error strings joined by a semicolon separator as the
message; it never returns a value in these cases. -/
theorem error_mapping (ak path : String) (args : List PyVal)
    (kwargs : List (String × PyVal)) (parse : ParseArg)
    (transport : Request → Response) (req : Request) (es : List String)
    (hreq : fetchRequest ak path args kwargs = .ok req)
    (h200 : (transport req).status ≠ 200) (h304 : (transport req).status ≠ 304)
    (herr : pyGetItem (transport req).body "errors" = .ok (Json.arr (es.map Json.str))) :
    fetch ak path args kwargs parse transport =
      .raised (if (transport req).status = 404
        then .nytNotFoundError (String.intercalate "; " es)
        else .nytCampfinError (String.intercalate "; " es)) :=
  fetch_fail_eq ak path args kwargs parse transport req es hreq h200 h304 herr

set_option maxRecDepth 20000 in
/-- Witness for claim C2: the mocked 500 response of the specification,
raising NytCampfinError with message "server error; retry later". -/
theorem error_mapping_witness :
    fetchRequest "KEY" "/%s/filings" [PyVal.int 2012] [("offset", PyVal.int 0)]
      = Except.ok ⟨"http://api.nytimes.com/svc/elections/us/v3/finances/2012/filings.json",
          [("offset", PyVal.int 0), ("api-key", PyVal.str "KEY")]⟩
    ∧ fetch "KEY" "/%s/filings" [PyVal.int 2012] [("offset", PyVal.int 0)]
        (ParseArg.callable resultsParse)
        (fun _ => ⟨500, Json.obj [("errors",
            Json.arr [Json.str "server error", Json.str "retry later"])]⟩)
      = Outcome.raised (PyExc.nytCampfinError "server error; retry later") := by
  refine ⟨rfl, ?_⟩
  have h := error_mapping "KEY" "/%s/filings" [PyVal.int 2012]
    [("offset", PyVal.int 0)] (ParseArg.callable resultsParse)
    (fun _ => ⟨500, Json.obj [("errors",
        Json.arr [Json.str "server error", Json.str "retry later"])]⟩)
    ⟨"http://api.nytimes.com/svc/elections/us/v3/finances/2012/filings.json",
      [("offset", PyVal.int 0), ("api-key", PyVal.str "KEY")]⟩
    ["server error", "retry later"] rfl (by decide) (by decide) rfl
  simpa using h

/-- Claim C3: for every fetch call with a path template not prefixed by the
base URI, when substitution of the positional arguments into the template
succeeds, the URL of the request sent is the base URI followed by the
substituted template followed by ".json", and the query parameters sent
include the API key under the parameter name "api-key". -/
theorem url_construction (ak path : String) (args : List PyVal)
    (kwargs : List (String × PyVal)) (v : PyVal) (sub : String)
    (hoff : lookupA kwargs "offset" = some v)
    (hpre : pyStartsWith (pyLower path) BASE_URI = false)
    (hsub : pyFormat path args = .ok sub) :
    urlOf (fetchRequest ak path args kwargs) = some (BASE_URI ++ sub ++ ".json")
    ∧ paramOf (fetchRequest ak path args kwargs) "api-key" = some (.str ak) := by
  have hbuild : buildUrl path args = .ok (BASE_URI ++ sub ++ ".json") := by
    unfold buildUrl
    rw [hpre]
    exact pyFormat_full path args sub hsub
  unfold fetchRequest
  simp only [normalizeOffset, hoff]
  by_cases ht : v.truthy <;>
    simp [ht, hbuild, urlOf, paramOf, lookupA_setKey_self]

set_option maxRecDepth 20000 in
/-- Witness for claim C3: the candidates template with concrete arguments. -/
theorem url_construction_witness :
    lookupA [("offset", PyVal.int 20)] "offset" = some (PyVal.int 20)
    ∧ pyStartsWith (pyLower "/%s/candidates/%s") BASE_URI = false
    ∧ pyFormat "/%s/candidates/%s" [PyVal.int 2012, PyVal.str "P60007168"]
        = Except.ok "/2012/candidates/P60007168"
    ∧ urlOf (fetchRequest "KEY" "/%s/candidates/%s"
          [PyVal.int 2012, PyVal.str "P60007168"] [("offset", PyVal.int 20)])
        = some (BASE_URI ++ "/2012/candidates/P60007168" ++ ".json")
    ∧ paramOf (fetchRequest "KEY" "/%s/candidates/%s"
          [PyVal.int 2012, PyVal.str "P60007168"] [("offset", PyVal.int 20)]) "api-key"
        = some (.str "KEY") := by
  have h := url_construction "KEY" "/%s/candidates/%s"
    [PyVal.int 2012, PyVal.str "P60007168"] [("offset", PyVal.int 20)]
    (PyVal.int 20) "/2012/candidates/P60007168" rfl rfl rfl
  exact ⟨rfl, rfl, rfl, h.1, h.2⟩

end NytCampfin

namespace NytCampfin

set_option maxRecDepth 20000 in
/-- Claim C4: with a mocked success response whose body is a results list
containing the single object with id C001 (and DEBUG disabled),
candidates.get returns exactly that first element of results, through the
default extraction function of fetch. -/
theorem candidates_get_first_result :
    CandidatesClient.get "KEY" (PyVal.str "C001") (PyVal.int 2012) (PyVal.int 0)
      (fun _ => ⟨200, Json.obj [("results", Json.arr [Json.obj [("id", Json.str "C001")]])]⟩)
      = Outcome.ok (Json.obj [("id", Json.str "C001")]) := rfl

set_option maxRecDepth 60000 in
/-- Claim C5: seats selects among exactly three mutually exclusive path
templates by presence of district, then chamber; the calls for NY, NY/H and
NY/H/3 each build a distinct, correctly shaped URL with no superfluous path
segments. The transport here echoes the fetched URL back through the
results list, so the equations observe the URL that each call requests. -/
theorem seats_path_variants :
    (CandidatesClient.seats "KEY" (PyVal.str "NY") PyVal.none PyVal.none
        (PyVal.int 2012) (PyVal.int 0)
        (fun req => ⟨200, Json.obj [("results", Json.arr [Json.str req.url])]⟩)
      = Outcome.ok (Json.arr [Json.str
          "http://api.nytimes.com/svc/elections/us/v3/finances/2012/seats/NY.json"]))
    ∧ (CandidatesClient.seats "KEY" (PyVal.str "NY") (PyVal.str "H") PyVal.none
        (PyVal.int 2012) (PyVal.int 0)
        (fun req => ⟨200, Json.obj [("results", Json.arr [Json.str req.url])]⟩)
      = Outcome.ok (Json.arr [Json.str
          "http://api.nytimes.com/svc/elections/us/v3/finances/2012/seats/NY/H.json"]))
    ∧ (CandidatesClient.seats "KEY" (PyVal.str "NY") (PyVal.str "H") (PyVal.str "3")
        (PyVal.int 2012) (PyVal.int 0)
        (fun req => ⟨200, Json.obj [("results", Json.arr [Json.str req.url])]⟩)
      = Outcome.ok (Json.arr [Json.str
          "http://api.nytimes.com/svc/elections/us/v3/finances/2012/seats/NY/H/3.json"]))
    ∧ ("http://api.nytimes.com/svc/elections/us/v3/finances/2012/seats/NY.json"
        ≠ "http://api.nytimes.com/svc/elections/us/v3/finances/2012/seats/NY/H.json")
    ∧ ("http://api.nytimes.com/svc/elections/us/v3/finances/2012/seats/NY.json"
        ≠ "http://api.nytimes.com/svc/elections/us/v3/finances/2012/seats/NY/H/3.json")
    ∧ ("http://api.nytimes.com/svc/elections/us/v3/finances/2012/seats/NY/H.json"
        ≠ "http://api.nytimes.com/svc/elections/us/v3/finances/2012/seats/NY/H/3.json") :=
  ⟨rfl, rfl, rfl, by decide, by decide, by decide⟩

/-- Claim C6: no fetch call returns a partial results sequence on failure:
for every response whose status code is neither 200 nor 304, the call never
returns a value; it fails entirely by raising. -/
theorem no_result_on_failure (ak path : String) (args : List PyVal)
    (kwargs : List (String × PyVal)) (parse : ParseArg)
    (transport : Request → Response) (req : Request)
    (hreq : fetchRequest ak path args kwargs = .ok req)
    (h200 : (transport req).status ≠ 200) (h304 : (transport req).status ≠ 304) :
    ∀ value : Json, fetch ak path args kwargs parse transport ≠ .ok value := by
  intro value
  unfold fetch
  rw [hreq]
  show handleResponse parse req.url (transport req) ≠ _
  unfold handleResponse
  have hcond : (!(decide ((transport req).status = 200 ∨ (transport req).status = 304))) = true := by
    simp [h200, h304]
  rw [hcond]
  cases hjoin : joinErrors (transport req).body with
  | error e => simp
  | ok msg => by_cases h404 : (transport req).status = 404 <;> simp [h404]

set_option maxRecDepth 20000 in
/-- Witness for claim C6: a concrete 500 response yields no value, not even
for a body whose errors field is missing. -/
theorem no_result_on_failure_witness :
    fetchRequest "KEY" "/%s/filings" [PyVal.int 2012] [("offset", PyVal.int 0)]
      = Except.ok ⟨"http://api.nytimes.com/svc/elections/us/v3/finances/2012/filings.json",
          [("offset", PyVal.int 0), ("api-key", PyVal.str "KEY")]⟩
    ∧ fetch "KEY" "/%s/filings" [PyVal.int 2012] [("offset", PyVal.int 0)]
        (ParseArg.callable resultsParse) (fun _ => ⟨500, Json.obj []⟩)
      ≠ Outcome.ok (Json.arr []) :=
  ⟨rfl,
    no_result_on_failure "KEY" "/%s/filings" [PyVal.int 2012]
      [("offset", PyVal.int 0)] (ParseArg.callable resultsParse)
      (fun _ => ⟨500, Json.obj []⟩)
      ⟨"http://api.nytimes.com/svc/elections/us/v3/finances/2012/filings.json",
        [("offset", PyVal.int 0), ("api-key", PyVal.str "KEY")]⟩
      rfl (by decide) (by decide) (Json.arr [])⟩

/-- Claim C7: on a success response, a non-callable parse value makes fetch
return the decoded body unmodified (no extraction and, DEBUG being off, no
debug annotation), while an absent parse applies the default
first-of-results extraction. -/
theorem parse_handling (ak path : String) (args : List PyVal)
    (kwargs : List (String × PyVal)) (transport : Request → Response)
    (req : Request) (w : PyVal) (x : Json) (xs : List Json)
    (hreq : fetchRequest ak path args kwargs = .ok req)
    (hst : (transport req).status = 200 ∨ (transport req).status = 304) :
    (fetch ak path args kwargs (.notCallable w) transport = .ok (transport req).body)
    ∧ (pyGetItem (transport req).body "results" = .ok (Json.arr (x :: xs)) →
        fetch ak path args kwargs .absent transport = .ok x) := by
  have hcond : (!(decide ((transport req).status = 200 ∨ (transport req).status = 304))) = false := by
    simp [hst]
  constructor
  · unfold fetch
    rw [hreq]
    show handleResponse _ req.url (transport req) = _
    unfold handleResponse
    rw [hcond]
    rfl
  · intro hres
    unfold fetch
    rw [hreq]
    show handleResponse _ req.url (transport req) = _
    unfold handleResponse
    rw [hcond]
    show applyCallable defaultParse (transport req).body req.url = _
    unfold applyCallable defaultParse
    rw [hres]
    show (match pyIndexZero (Json.arr (x :: xs)) with
      | .error e => Outcome.raised e
      | .ok r => if DEBUG then _ else Outcome.ok r) = _
    simp [pyIndexZero, DEBUG]

set_option maxRecDepth 20000 in
/-- Witness for claim C7 at a concrete success response: a non-callable
parse returns the whole envelope unchanged, an absent parse returns the
first element of results. -/
theorem parse_handling_witness :
    fetchRequest "KEY" "/%s/committees/%s" [PyVal.int 2012, PyVal.str "C00553560"]
        [("offset", PyVal.int 0)]
      = Except.ok ⟨"http://api.nytimes.com/svc/elections/us/v3/finances/2012/committees/C00553560.json",
          [("offset", PyVal.int 0), ("api-key", PyVal.str "KEY")]⟩
    ∧ (fetch "KEY" "/%s/committees/%s" [PyVal.int 2012, PyVal.str "C00553560"]
          [("offset", PyVal.int 0)] (ParseArg.notCallable (PyVal.str "raw"))
          (fun _ => ⟨200, Json.obj [("status", Json.str "OK"),
              ("results", Json.arr [Json.obj [("id", Json.str "C00553560")]])]⟩)
        = Outcome.ok (Json.obj [("status", Json.str "OK"),
            ("results", Json.arr [Json.obj [("id", Json.str "C00553560")]])]))
    ∧ (fetch "KEY" "/%s/committees/%s" [PyVal.int 2012, PyVal.str "C00553560"]
          [("offset", PyVal.int 0)] ParseArg.absent
          (fun _ => ⟨200, Json.obj [("status", Json.str "OK"),
              ("results", Json.arr [Json.obj [("id", Json.str "C00553560")]])]⟩)
        = Outcome.ok (Json.obj [("id", Json.str "C00553560")])) := by
  have h := parse_handling "KEY" "/%s/committees/%s"
    [PyVal.int 2012, PyVal.str "C00553560"] [("offset", PyVal.int 0)]
    (fun _ => ⟨200, Json.obj [("status", Json.str "OK"),
        ("results", Json.arr [Json.obj [("id", Json.str "C00553560")]])]⟩)
    ⟨"http://api.nytimes.com/svc/elections/us/v3/finances/2012/committees/C00553560.json",
      [("offset", PyVal.int 0), ("api-key", PyVal.str "KEY")]⟩
    (PyVal.str "raw") (Json.obj [("id", Json.str "C00553560")]) []
    rfl (Or.inl rfl)
  exact ⟨rfl, h.1, h.2 rfl⟩

/-- Claim C8: NytNotFoundError is a subclass of NytCampfinError, and on a
failing API response carrying error strings the exception fetch raises,
including the 404 not-found case, is an instance of NytCampfinError, so a
handler for NytCampfinError alone catches it. -/
theorem errors_catchable (ak path : String) (args : List PyVal)
    (kwargs : List (String × PyVal)) (parse : ParseArg)
    (transport : Request → Response) (req : Request) (es : List String) (e : PyExc)
    (hreq : fetchRequest ak path args kwargs = .ok req)
    (h200 : (transport req).status ≠ 200) (h304 : (transport req).status ≠ 304)
    (herr : pyGetItem (transport req).body "errors" = .ok (Json.arr (es.map Json.str)))
    (hr : fetch ak path args kwargs parse transport = .raised e) :
    isSubclass ExcClass.nytNotFoundErrorClass ExcClass.nytCampfinErrorClass = true
    ∧ isInstance e ExcClass.nytCampfinErrorClass = true := by
  refine ⟨rfl, ?_⟩
  rw [fetch_fail_eq ak path args kwargs parse transport req es hreq h200 h304 herr] at hr
  injection hr with he
  by_cases h404 : (transport req).status = 404
  · rw [if_pos h404] at he
    rw [← he]
    rfl
  · rw [if_neg h404] at he
    rw [← he]
    rfl

set_option maxRecDepth 20000 in
/-- Witness for claim C8: the 404 case raises NytNotFoundError, which a
handler for NytCampfinError catches. -/
theorem errors_catchable_witness :
    fetchRequest "KEY" "/%s/candidates/%s" [PyVal.int 2012, PyVal.str "X"]
        [("offset", PyVal.int 0)]
      = Except.ok ⟨"http://api.nytimes.com/svc/elections/us/v3/finances/2012/candidates/X.json",
          [("offset", PyVal.int 0), ("api-key", PyVal.str "KEY")]⟩
    ∧ (isSubclass ExcClass.nytNotFoundErrorClass ExcClass.nytCampfinErrorClass = true
      ∧ isInstance (PyExc.nytNotFoundError "not found") ExcClass.nytCampfinErrorClass = true) := by
  refine ⟨rfl, ?_⟩
  exact errors_catchable "KEY" "/%s/candidates/%s" [PyVal.int 2012, PyVal.str "X"]
    [("offset", PyVal.int 0)] ParseArg.absent
    (fun _ => ⟨404, Json.obj [("errors", Json.arr [Json.str "not found"])]⟩)
    ⟨"http://api.nytimes.com/svc/elections/us/v3/finances/2012/candidates/X.json",
      [("offset", PyVal.int 0), ("api-key", PyVal.str "KEY")]⟩
    ["not found"] (PyExc.nytNotFoundError "not found")
    rfl (by decide) (by decide) rfl rfl

/-- Claim C9: for every fetch call whose path already starts, after
lowercasing, with the base URI, the positional arguments are ignored (the
built request does not depend on them) and the URL requested is exactly the
given path with a single question mark appended. -/
theorem full_url_passthrough (ak path : String) (args args2 : List PyVal)
    (kwargs : List (String × PyVal)) (v : PyVal)
    (hoff : lookupA kwargs "offset" = some v)
    (hpre : pyStartsWith (pyLower path) BASE_URI = true) :
    fetchRequest ak path args kwargs = fetchRequest ak path args2 kwargs
    ∧ urlOf (fetchRequest ak path args kwargs) = some (path ++ "?") := by
  have hbuild : ∀ a : List PyVal, buildUrl path a = .ok (path ++ "?") := by
    intro a
    unfold buildUrl
    rw [hpre]
    rfl
  unfold fetchRequest
  simp only [normalizeOffset, hoff]
  by_cases ht : v.truthy <;> simp [ht, hbuild, urlOf]

set_option maxRecDepth 20000 in
/-- Witness for claim C9: a full URL, uppercased scheme included, is passed
through untouched apart from the appended question mark, and the positional
arguments do not matter. -/
theorem full_url_passthrough_witness :
    lookupA [("offset", PyVal.int 0)] "offset" = some (PyVal.int 0)
    ∧ pyStartsWith (pyLower "HTTP://api.nytimes.com/svc/elections/us/v3/finances/2012/filings")
        BASE_URI = true
    ∧ (fetchRequest "KEY" "HTTP://api.nytimes.com/svc/elections/us/v3/finances/2012/filings"
          [PyVal.str "IGNORED"] [("offset", PyVal.int 0)]
        = fetchRequest "KEY" "HTTP://api.nytimes.com/svc/elections/us/v3/finances/2012/filings"
          [] [("offset", PyVal.int 0)])
    ∧ urlOf (fetchRequest "KEY" "HTTP://api.nytimes.com/svc/elections/us/v3/finances/2012/filings"
          [PyVal.str "IGNORED"] [("offset", PyVal.int 0)])
        = some ("HTTP://api.nytimes.com/svc/elections/us/v3/finances/2012/filings" ++ "?") := by
  have h := full_url_passthrough "KEY"
    "HTTP://api.nytimes.com/svc/elections/us/v3/finances/2012/filings"
    [PyVal.str "IGNORED"] [] [("offset", PyVal.int 0)] (PyVal.int 0) rfl rfl
  exact ⟨rfl, rfl, h.1, h.2⟩

set_option maxRecDepth 20000 in
/-- Claim C10: on a success response whose results list is empty, a call
using the default extraction neither returns a value nor raises a
NytCampfinError: it raises the implementation-level IndexError from
indexing the empty list, which no NytCampfinError handler catches. -/
theorem empty_results_fault :
    (CandidatesClient.get "KEY" (PyVal.str "C001") (PyVal.int 2012) (PyVal.int 0)
        (fun _ => ⟨200, Json.obj [("results", Json.arr [])]⟩)
      = Outcome.raised (PyExc.indexError "list index out of range"))
    ∧ (CommitteesClient.get "KEY" (PyVal.str "C00553560") (PyVal.int 2012) (PyVal.int 0)
        (fun _ => ⟨200, Json.obj [("results", Json.arr [])]⟩)
      = Outcome.raised (PyExc.indexError "list index out of range"))
    ∧ isInstance (PyExc.indexError "list index out of range")
        ExcClass.nytCampfinErrorClass = false
    ∧ isInstance (PyExc.indexError "list index out of range")
        ExcClass.lookupErrorClass = true :=
  ⟨rfl, rfl, rfl, rfl⟩

end NytCampfin
